import Mathlib

/-!
Verification of the vrpn-rs wire codec (`src/message.rs`, `src/ser.rs`,
`src/de.rs`) against its natural-language specification.

Shallow embedding conventions:
- A Rust `Bytes` buffer is a `List Nat` of byte values (each `< 256` on any
  byte list actually produced by the encoder).
- `usize` is `Nat`; the `as u32` cast is modelled by `% 2 ^ 32`.
- `i32` values are `Int` with wire validity `-2^31 ≤ v < 2^31` carried as
  hypotheses; the two's-complement wire image is `(v % 2^32).toNat`.
- Fallible operations return `Except Error _` or a `DecodeOutcome` that also
  records the final state of the mutable input buffer; a Rust panic
  (`usize` underflow in debug profile, `Bytes::split_to` out of range,
  a failed `assert_eq!`) is the distinguished outcome `panicked`.
-/

namespace Vrpn

/-- How many more bytes a decode needs (crate type `BytesRequired`, declared
outside `src/` but fully determined by its uses in `src/message.rs` and
`src/de.rs`). -/
inductive BytesRequired where
  | Exactly (n : Nat)
  | AtLeast (n : Nat)
deriving DecidableEq, Repr

/-- The error variants of the crate's `Error` enum that the code under
verification can produce (`NeedMoreData`, `OutOfBuffer`, `TrailingCharacters`,
`OtherMessage`). -/
inductive Error where
  | NeedMoreData (b : BytesRequired)
  | OutOfBuffer
  | TrailingCharacters
  | OtherMessage (s : String)
deriving DecidableEq, Repr

instance {e a : Type} [DecidableEq e] [DecidableEq a] : DecidableEq (Except e a)
  | .error x, .error y =>
    if h : x = y then .isTrue (by rw [h]) else .isFalse (by intro hc; cases hc; exact h rfl)
  | .error _, .ok _ => .isFalse (by intro hc; cases hc)
  | .ok _, .error _ => .isFalse (by intro hc; cases hc)
  | .ok x, .ok y =>
    if h : x = y then .isTrue (by rw [h]) else .isFalse (by intro hc; cases hc; exact h rfl)

/-- Modelled from the spec: the prelude combinator
`map_exactly_err_to_at_least` (used in `src/message.rs` but defined outside
`src/`) converts a `NeedMoreData(Exactly n)` error into
`NeedMoreData(AtLeast n)` and leaves every other value unchanged. -/
def map_exactly_err_to_at_least (e : Error) : Error :=
  match e with
  | .NeedMoreData (.Exactly n) => .NeedMoreData (.AtLeast n)
  | e => e

/-! ## Padding arithmetic (`src/message.rs` lines 212-293) -/

/-- Wire alignment constant `ALIGN` (crate `constants` module; spec §3:
"Wire alignment constant ALIGN = 8 bytes"). -/
def ALIGN : Nat := 8

/-- `compute_padding` from `src/message.rs` (the source binds
`remainder = len % ALIGN`; it is inlined here). -/
def compute_padding (len : Nat) : Nat :=
  if len % ALIGN ≠ 0 then ALIGN - len % ALIGN else 0

/-- `padded` from `src/message.rs`. -/
def padded (len : Nat) : Nat :=
  len + compute_padding len

/-- `MessageSize` from `src/message.rs`: wraps the unpadded body size. -/
structure MessageSize where
  unpadded_body_size : Nat
deriving DecidableEq, Repr

namespace MessageSize

/-- `MessageSize::UNPADDED_HEADER_SIZE = 5 * 4`. -/
def UNPADDED_HEADER_SIZE : Nat := 5 * 4

/-- `MessageSize::from_unpadded_body_size`. -/
def from_unpadded_body_size (unpadded_body_size : Nat) : MessageSize :=
  { unpadded_body_size }

/-- `MessageSize::from_length_field`: computes
`length_field as usize - padded(UNPADDED_HEADER_SIZE)`. The `usize`
subtraction underflows (panics) when `length_field < padded(20) = 24`;
the panic is modelled by `none`. -/
def from_length_field (length_field : Nat) : Option MessageSize :=
  if length_field < padded UNPADDED_HEADER_SIZE then none
  else some (from_unpadded_body_size (length_field - padded UNPADDED_HEADER_SIZE))

/-- `MessageSize::length_field`: `(unpadded_body_size + padded(20)) as u32`;
the `as u32` cast truncates modulo `2^32`. -/
def length_field (s : MessageSize) : Nat :=
  (s.unpadded_body_size + padded UNPADDED_HEADER_SIZE) % 2 ^ 32

/-- `MessageSize::padded_body_size`. -/
def padded_body_size (s : MessageSize) : Nat :=
  padded s.unpadded_body_size

/-- `MessageSize::body_padding`. -/
def body_padding (s : MessageSize) : Nat :=
  compute_padding s.unpadded_body_size

/-- `MessageSize::padded_message_size`. -/
def padded_message_size (s : MessageSize) : Nat :=
  s.padded_body_size + padded UNPADDED_HEADER_SIZE

end MessageSize

/-! ## Message data model (`src/message.rs`, `src/types.rs`)

The claims only exercise `SequencedMessage<GenericBody>`, so the body type is
monomorphised to `GenericBody`. `TypeId`, `SenderId` wrap `IdType = i32`
(`src/types.rs`); they are carried as `Int` with wire-validity hypotheses.
`SequenceNumber` wraps `u32`, carried as `Nat`. -/

/-- `TimeVal` (crate `time` module, outside `src/`). Modelled from the spec:
§6 "i32 seconds (BE) + i32 microseconds (BE)", §3 "timestamp 8B as two 32-bit
fields". -/
structure TimeVal where
  seconds : Int
  microseconds : Int
deriving DecidableEq, Repr

/-- `MessageHeader` from `src/message.rs`. -/
structure MessageHeader where
  time : TimeVal
  message_type : Int
  sender : Int
deriving DecidableEq, Repr

/-- `GenericBody` from `src/message.rs`: raw undecoded bytes. -/
structure GenericBody where
  inner : List Nat
deriving DecidableEq, Repr

/-- `GenericBody::new`. -/
def GenericBody.new (inner : List Nat) : GenericBody := { inner }

/-- `Message<GenericBody>` from `src/message.rs`. -/
structure Message where
  header : MessageHeader
  body : GenericBody
deriving DecidableEq, Repr

/-- `SequencedMessage<GenericBody>` from `src/message.rs`. -/
structure SequencedMessage where
  message : Message
  sequence_number : Nat
deriving DecidableEq, Repr

/-- `SequencedMessage::new` (argument order as in `src/message.rs`:
time, message_type, sender, body, sequence_number). -/
def SequencedMessage.new (time : TimeVal) (message_type : Int) (sender : Int)
    (body : GenericBody) (sequence_number : Nat) : SequencedMessage :=
  { message := { header := { time, message_type, sender }, body }
    sequence_number }

/-- `generic_message_size` from `src/message.rs`. -/
def generic_message_size (msg : SequencedMessage) : MessageSize :=
  MessageSize.from_unpadded_body_size msg.message.body.inner.length

/-! ## Primitive big-endian byte codec

The `Buffer`/`Unbuffer` impls for `u32`/`i32` live outside `src/`
(crate `buffer`/`prelude` modules); they are modelled from the spec:
§4.2 "fixed-width numeric primitives ... in big-endian order", failing with
the need-more-data signal carrying the exact shortfall when fewer than the
byte-width bytes remain (`src/message.rs` converts that `Exactly` error with
`map_exactly_err_to_at_least`, so the primitive itself reports `Exactly`). -/

/-- Big-endian reassembly of four bytes into a `u32` value. -/
def read_u32_be (b0 b1 b2 b3 : Nat) : Nat :=
  ((b0 * 256 + b1) * 256 + b2) * 256 + b3

/-- Modelled from the spec: big-endian byte image of a `u32` value. -/
def write_u32_be (v : Nat) : List Nat :=
  [v / 2 ^ 24 % 256, v / 2 ^ 16 % 256, v / 2 ^ 8 % 256, v % 256]

/-- Two's-complement `u32` image of an `i32` value. -/
def i32_to_u32 (v : Int) : Nat :=
  (v % 2 ^ 32).toNat

/-- `i32` value of a `u32` two's-complement image. -/
def u32_to_i32 (n : Nat) : Int :=
  if n < 2 ^ 31 then (n : Int) else (n : Int) - 2 ^ 32

/-- Modelled from the spec: big-endian byte image of an `i32` value. -/
def write_i32_be (v : Int) : List Nat :=
  write_u32_be (i32_to_u32 v)

/-- Modelled from the spec: `u32::unbuffer_ref` — read a 4-byte big-endian
`u32`, consuming it; with fewer than 4 bytes fail with
`NeedMoreData(Exactly shortfall)` and consume nothing. -/
def unbuffer_u32 (buf : List Nat) : Except Error (Nat × List Nat) :=
  match buf with
  | b0 :: b1 :: b2 :: b3 :: rest => .ok (read_u32_be b0 b1 b2 b3, rest)
  | _ => .error (.NeedMoreData (.Exactly (4 - buf.length)))

/-- Modelled from the spec: `i32` (`IdType`) unbuffering via the `u32` image. -/
def unbuffer_i32 (buf : List Nat) : Except Error (Int × List Nat) :=
  match unbuffer_u32 buf with
  | .ok (n, rest) => .ok (u32_to_i32 n, rest)
  | .error e => .error e

/-- Modelled from the spec: `TimeVal::unbuffer_ref` — two consecutive
big-endian `i32` fields, seconds then microseconds. -/
def TimeVal.unbuffer_ref (buf : List Nat) : Except Error (TimeVal × List Nat) :=
  match unbuffer_i32 buf with
  | .error e => .error e
  | .ok (seconds, buf) =>
    match unbuffer_i32 buf with
    | .error e => .error e
    | .ok (microseconds, buf) => .ok ({ seconds, microseconds }, buf)

/-! ## Frame encoding (`impl Buffer for SequencedMessage<GenericBody>`,
`src/message.rs` lines 315-336) -/

/-- The byte sequence `buffer_ref` writes for a message (the writes of
`src/message.rs` lines 322-333 in order: length field, time, sender,
message_type, sequence number, raw body bytes, `body_padding()` zero bytes). -/
def encodeFrame (msg : SequencedMessage) : List Nat :=
  write_u32_be (generic_message_size msg).length_field
    ++ write_i32_be msg.message.header.time.seconds
    ++ write_i32_be msg.message.header.time.microseconds
    ++ write_i32_be msg.message.header.sender
    ++ write_i32_be msg.message.header.message_type
    ++ write_u32_be msg.sequence_number
    ++ msg.message.body.inner
    ++ List.replicate (generic_message_size msg).body_padding 0

/-- `SequencedMessage::<GenericBody>::buffer_ref` from `src/message.rs`:
`remaining_mut` is the destination's free capacity; on success the result is
the byte sequence written. -/
def SequencedMessage.buffer_ref (msg : SequencedMessage) (remaining_mut : Nat) :
    Except Error (List Nat) :=
  let size := generic_message_size msg
  if remaining_mut < size.padded_message_size then .error .OutOfBuffer
  else .ok (encodeFrame msg)

/-! ## Frame decoding (`impl Unbuffer`, `src/message.rs` lines 338-386) -/

/-- Result of a decode attempt on a mutable buffer: success or error, each
with the buffer's final state, or a Rust panic. -/
inductive DecodeOutcome (α : Type) where
  | ok (val : α) (rest : List Nat)
  | err (e : Error) (rest : List Nat)
  | panicked
deriving DecidableEq, Repr

/-- `GenericBody::unbuffer_ref` from `src/message.rs` lines 380-386: clone the
whole buffer as the body and advance the buffer past all of it. -/
def GenericBody.unbuffer_ref (buf : List Nat) : Except Error (GenericBody × List Nat) :=
  .ok (GenericBody.new buf, buf.drop buf.length)

/-- `SequencedMessage::<GenericBody>::unbuffer_ref` from `src/message.rs`
lines 340-377. Panics (`DecodeOutcome.panicked`) model: the `usize`
underflow inside `from_length_field`, the two `assert_eq!`s, and
`Bytes::split_to` called with more than the remaining length. -/
def SequencedMessage.unbuffer_ref (buf : List Nat) : DecodeOutcome SequencedMessage :=
  let initial_remaining := buf.length
  match unbuffer_u32 buf with
  | .error e => .err (map_exactly_err_to_at_least e) buf
  | .ok (length_field, buf1) =>
    match MessageSize.from_length_field length_field with
    | none => .panicked
    | some size =>
      -- Subtracting the length of the u32 we already unbuffered.
      let expected_remaining_bytes := size.padded_message_size - 4
      if buf1.length < expected_remaining_bytes then
        .err (.NeedMoreData (.Exactly (expected_remaining_bytes - buf1.length))) buf1
      else
        match TimeVal.unbuffer_ref buf1 with
        | .error e => .err e buf1
        | .ok (time, buf2) =>
        match unbuffer_i32 buf2 with
        | .error e => .err e buf2
        | .ok (sender, buf3) =>
        match unbuffer_i32 buf3 with
        | .error e => .err e buf3
        | .ok (message_type, buf4) =>
        match unbuffer_u32 buf4 with
        | .error e => .err e buf4
        | .ok (sequence_number, buf5) =>
        if (initial_remaining - buf5.length) % ALIGN ≠ 0 then .panicked
        else if buf5.length < size.unpadded_body_size then .panicked
        else
          let body_buf := buf5.take size.unpadded_body_size
          let buf6 := buf5.drop size.unpadded_body_size
          match GenericBody.unbuffer_ref body_buf with
          | .error e => .err (map_exactly_err_to_at_least e) buf6
          | .ok (body, body_rest) =>
            if body_rest.length ≠ 0 then .panicked
            else if buf6.length < size.body_padding then .panicked
            else
              .ok (SequencedMessage.new time message_type sender body sequence_number)
                (buf6.drop size.body_padding)

/-! ## Primitive serialization engine (`src/ser.rs`, `src/de.rs`) -/

/-- `Serializer::serialize_i16` from `src/ser.rs`: `put_i16_be`, the 2-byte
big-endian two's-complement image. -/
def serialize_i16 (v : Int) : List Nat :=
  [(v % 2 ^ 16).toNat / 2 ^ 8 % 256, (v % 2 ^ 16).toNat % 256]

/-- `Serializer::serialize_bool` from `src/ser.rs` lines 49-51: delegates to
`serialize_i16` with `1_i16` for true and `0_i16` for false. -/
def serialize_bool (v : Bool) : List Nat :=
  serialize_i16 (if v then 1 else 0)

/-- `Deserializer::parse::<u32>` from `src/de.rs`: `check_size` fails with
`NeedMoreData(AtLeast shortfall)` when fewer than 4 bytes remain
(`PrimitiveSerde::check_size`), otherwise `get_u32_be` consumes 4 bytes. -/
def parse_u32 (buf : List Nat) : Except Error (Nat × List Nat) :=
  match buf with
  | b0 :: b1 :: b2 :: b3 :: rest => .ok (read_u32_be b0 b1 b2 b3, rest)
  | _ => .error (.NeedMoreData (.AtLeast (4 - buf.length)))

/-- `Deserializer::parse_bool` from `src/de.rs` lines 40-42: parse a `u32`
and map it to `v == 1`. -/
def parse_bool (buf : List Nat) : Except Error (Bool × List Nat) :=
  match parse_u32 buf with
  | .ok (v, rest) => .ok (decide (v = 1), rest)
  | .error e => .error e

/-- `from_buf` from `src/de.rs` lines 22-34, generic over the deserialized
type: run the type's deserializer, then fail with `TrailingCharacters` if the
input still has remaining bytes. -/
def from_buf {α : Type} (deserialize : List Nat → Except Error (α × List Nat))
    (buf : List Nat) : Except Error α :=
  match deserialize buf with
  | .error e => .error e
  | .ok (t, rest) => if rest.length ≠ 0 then .error .TrailingCharacters else .ok t

/-- Modelled from the spec: the prelude combinator
`map_need_more_err_to_generic_parse_err` (used in `src/message.rs` line 105
but defined outside `src/`) turns a recoverable `NeedMoreData` error into a
fatal generic parse error carrying the given context string. -/
def map_need_more_err_to_generic_parse_err (s : String) (e : Error) : Error :=
  match e with
  | .NeedMoreData _ => .OtherMessage s
  | e => e

/-- `Message::try_from_generic` from `src/message.rs` lines 101-115, generic
over the typed body `T` (passed as its `unbuffer_ref` function): unbuffer the
typed body from a clone of the generic body's bytes; if bytes remain
unconsumed, fail with the `OtherMessage` formatted at lines 107-111. The
typed message is modelled as the pair (header, typed body). -/
def Message.try_from_generic {α : Type}
    (unbuffer_ref : List Nat → Except Error (α × List Nat)) (msg : Message) :
    Except Error (MessageHeader × α) :=
  match (Except.mapError
      (map_need_more_err_to_generic_parse_err "parsing message body")
      (unbuffer_ref msg.body.inner)) with
  | .error e => .error e
  | .ok (body, buf) =>
    if buf.length > 0 then
      .error (.OtherMessage ("message body length was indicated as "
        ++ toString msg.body.inner.length ++ ", but "
        ++ toString buf.length ++ " bytes remain unconsumed"))
    else .ok (msg.header, body)

/-! ## Wire validity

The value ranges the Rust types guarantee statically: `IdType`, the time
fields are `i32`; `SequenceNumber` wraps `u32`; and the body is short enough
that the `as u32` cast of the length field does not truncate (any body in the
spec's representative range `0..10000` qualifies). -/

/-- Range of an `i32` value. -/
def i32_wire_valid (v : Int) : Prop := -(2 ^ 31) ≤ v ∧ v < 2 ^ 31

instance (v : Int) : Decidable (i32_wire_valid v) := by
  unfold i32_wire_valid; infer_instance

/-- A `SequencedMessage<GenericBody>` whose fields are within their Rust
types' ranges and whose length field does not truncate. -/
def wire_valid (msg : SequencedMessage) : Prop :=
  i32_wire_valid msg.message.header.time.seconds ∧
  i32_wire_valid msg.message.header.time.microseconds ∧
  i32_wire_valid msg.message.header.message_type ∧
  i32_wire_valid msg.message.header.sender ∧
  msg.sequence_number < 2 ^ 32 ∧
  msg.message.body.inner.length + 24 < 2 ^ 32

instance (msg : SequencedMessage) : Decidable (wire_valid msg) := by
  unfold wire_valid; infer_instance

/-! ## Basic facts about the padding arithmetic -/

theorem compute_padding_lt (len : Nat) : compute_padding len < ALIGN := by
  unfold compute_padding ALIGN
  split <;> omega

theorem padded_mod (len : Nat) : padded len % ALIGN = 0 := by
  unfold padded compute_padding ALIGN
  split <;> omega

theorem padded_header_eq : padded MessageSize.UNPADDED_HEADER_SIZE = 24 := by
  decide

theorem le_padded (len : Nat) : len ≤ padded len := by
  unfold padded; omega

/-! ## Primitive codec lemmas -/

theorem write_u32_be_length (v : Nat) : (write_u32_be v).length = 4 := by
  simp [write_u32_be]

theorem write_i32_be_length (v : Int) : (write_i32_be v).length = 4 := by
  simp [write_i32_be, write_u32_be]

theorem unbuffer_write_u32 (v : Nat) (h : v < 2 ^ 32) (r : List Nat) :
    unbuffer_u32 (write_u32_be v ++ r) = .ok (v, r) := by
  simp only [write_u32_be, List.cons_append, List.nil_append, unbuffer_u32, read_u32_be]
  congr 1
  congr 1
  omega

theorem i32_to_u32_lt (v : Int) : i32_to_u32 v < 2 ^ 32 := by
  unfold i32_to_u32
  omega

theorem u32_to_i32_i32_to_u32 (v : Int) (h1 : -(2 ^ 31) ≤ v) (h2 : v < 2 ^ 31) :
    u32_to_i32 (i32_to_u32 v) = v := by
  unfold u32_to_i32 i32_to_u32
  split <;> omega

theorem unbuffer_write_i32 (v : Int) (h1 : -(2 ^ 31) ≤ v) (h2 : v < 2 ^ 31)
    (r : List Nat) : unbuffer_i32 (write_i32_be v ++ r) = .ok (v, r) := by
  unfold unbuffer_i32 write_i32_be
  rw [unbuffer_write_u32 _ (i32_to_u32_lt v)]
  simp [u32_to_i32_i32_to_u32 v h1 h2]

theorem unbuffer_write_timeval (s u : Int)
    (hs1 : -(2 ^ 31) ≤ s) (hs2 : s < 2 ^ 31)
    (hu1 : -(2 ^ 31) ≤ u) (hu2 : u < 2 ^ 31) (r : List Nat) :
    TimeVal.unbuffer_ref (write_i32_be s ++ (write_i32_be u ++ r)) =
      .ok ({ seconds := s, microseconds := u }, r) := by
  unfold TimeVal.unbuffer_ref
  rw [unbuffer_write_i32 s hs1 hs2]
  dsimp only
  rw [unbuffer_write_i32 u hu1 hu2]

/-! ## MessageSize evaluation lemmas -/

theorem unpadded_body_size_eval (L : Nat) :
    (MessageSize.from_unpadded_body_size L).unpadded_body_size = L := rfl

theorem body_padding_eval (L : Nat) :
    (MessageSize.from_unpadded_body_size L).body_padding = compute_padding L := rfl

theorem padded_message_size_eval (L : Nat) :
    (MessageSize.from_unpadded_body_size L).padded_message_size
      = L + compute_padding L + 24 := by
  show padded L + padded MessageSize.UNPADDED_HEADER_SIZE = L + compute_padding L + 24
  rw [padded_header_eq]
  unfold padded
  rfl

theorem from_length_field_eval (L : Nat) (h : L + 24 < 2 ^ 32) :
    MessageSize.from_length_field (L + 24)
      = some (MessageSize.from_unpadded_body_size L) := by
  unfold MessageSize.from_length_field
  rw [padded_header_eq, if_neg (by omega)]
  simp

theorem from_length_field_some (f : Nat) (h : 24 ≤ f) :
    MessageSize.from_length_field f
      = some (MessageSize.from_unpadded_body_size (f - 24)) := by
  unfold MessageSize.from_length_field
  rw [padded_header_eq, if_neg (by omega)]

theorem from_length_field_none (f : Nat) (h : f < 24) :
    MessageSize.from_length_field f = none := by
  unfold MessageSize.from_length_field
  rw [padded_header_eq, if_pos (by omega)]

/-! ## Decoding an encoded frame -/

theorem unbuffer_ref_encodeFrame (msg : SequencedMessage) (h : wire_valid msg) :
    SequencedMessage.unbuffer_ref (encodeFrame msg) = .ok msg [] := by
  obtain ⟨⟨⟨⟨sec, usec⟩, mtype, sender⟩, ⟨body⟩⟩, seq⟩ := msg
  simp only [wire_valid, i32_wire_valid] at h
  obtain ⟨⟨hs1, hs2⟩, ⟨hu1, hu2⟩, ⟨ht1, ht2⟩, ⟨hd1, hd2⟩, hq, hL⟩ := h
  have hlf : (generic_message_size ⟨⟨⟨⟨sec, usec⟩, mtype, sender⟩, ⟨body⟩⟩, seq⟩).length_field
      = body.length + 24 := by
    show (body.length + padded MessageSize.UNPADDED_HEADER_SIZE) % 2 ^ 32 = body.length + 24
    rw [padded_header_eq, Nat.mod_eq_of_lt hL]
  have hpad : (generic_message_size ⟨⟨⟨⟨sec, usec⟩, mtype, sender⟩, ⟨body⟩⟩, seq⟩).body_padding
      = compute_padding body.length := rfl
  unfold SequencedMessage.unbuffer_ref encodeFrame
  rw [hlf, hpad]
  simp only [List.append_assoc]
  rw [unbuffer_write_u32 _ (by omega : body.length + 24 < 2 ^ 32)]
  dsimp only
  rw [from_length_field_eval _ hL]
  dsimp only
  simp only [List.length_append, write_i32_be_length, write_u32_be_length,
    List.length_replicate, padded_message_size_eval, unpadded_body_size_eval,
    body_padding_eval]
  rw [if_neg (by omega)]
  rw [unbuffer_write_timeval sec usec hs1 hs2 hu1 hu2]
  dsimp only
  rw [unbuffer_write_i32 sender hd1 hd2]
  dsimp only
  rw [unbuffer_write_i32 mtype ht1 ht2]
  dsimp only
  rw [unbuffer_write_u32 seq hq]
  dsimp only
  simp only [List.length_append, List.length_replicate, ALIGN]
  rw [if_neg (by omega)]
  rw [if_neg (by omega)]
  rw [List.take_left' rfl, List.drop_left' rfl]
  unfold GenericBody.unbuffer_ref
  dsimp only
  simp only [List.drop_length, List.length_nil, List.length_replicate]
  rw [if_neg (by omega)]
  rw [if_neg (by omega)]
  simp [SequencedMessage.new, GenericBody.new, List.drop_eq_nil_of_le]

/-- Decoding a buffer that holds a valid length field but too few remaining
bytes fails with `NeedMoreData(Exactly shortfall)`, the length-field bytes
already consumed. -/
theorem unbuffer_ref_short (L : Nat) (hL : L + 24 < 2 ^ 32) (t : List Nat)
    (ht : t.length < L + compute_padding L + 20) :
    SequencedMessage.unbuffer_ref (write_u32_be (L + 24) ++ t)
      = .err (.NeedMoreData (.Exactly (L + compute_padding L + 20 - t.length))) t := by
  unfold SequencedMessage.unbuffer_ref
  rw [unbuffer_write_u32 _ (by omega)]
  dsimp only
  rw [from_length_field_eval L hL]
  dsimp only
  simp only [padded_message_size_eval]
  rw [if_pos (by omega)]
  have : L + compute_padding L + 24 - 4 - t.length
      = L + compute_padding L + 20 - t.length := by omega
  rw [this]

theorem unbuffer_ref_encodeFrame_truncated (msg : SequencedMessage)
    (h : wire_valid msg) (K : Nat) (hK1 : 1 ≤ K)
    (hK2 : K + 4 ≤ (generic_message_size msg).padded_message_size) :
    SequencedMessage.unbuffer_ref
        ((encodeFrame msg).take ((generic_message_size msg).padded_message_size - K))
      = .err (.NeedMoreData (.Exactly K))
          (((encodeFrame msg).take
            ((generic_message_size msg).padded_message_size - K)).drop 4) := by
  obtain ⟨⟨⟨⟨sec, usec⟩, mtype, sender⟩, ⟨body⟩⟩, seq⟩ := msg
  simp only [wire_valid, i32_wire_valid] at h
  obtain ⟨-, -, -, -, -, hL⟩ := h
  have hlf : (generic_message_size ⟨⟨⟨⟨sec, usec⟩, mtype, sender⟩, ⟨body⟩⟩, seq⟩).length_field
      = body.length + 24 := by
    show (body.length + padded MessageSize.UNPADDED_HEADER_SIZE) % 2 ^ 32 = body.length + 24
    rw [padded_header_eq, Nat.mod_eq_of_lt hL]
  have hpad : (generic_message_size ⟨⟨⟨⟨sec, usec⟩, mtype, sender⟩, ⟨body⟩⟩, seq⟩).body_padding
      = compute_padding body.length := rfl
  have hframe : encodeFrame ⟨⟨⟨⟨sec, usec⟩, mtype, sender⟩, ⟨body⟩⟩, seq⟩
      = write_u32_be (body.length + 24) ++
        (write_i32_be sec ++ (write_i32_be usec ++ (write_i32_be sender ++
          (write_i32_be mtype ++ (write_u32_be seq ++
            (body ++ List.replicate (compute_padding body.length) 0)))))) := by
    unfold encodeFrame
    rw [hlf, hpad]
    simp only [List.append_assoc]
  simp only [generic_message_size, padded_message_size_eval] at hK2 ⊢
  rw [hframe, List.take_append_eq_append_take,
    List.take_of_length_le (by rw [write_u32_be_length]; omega), write_u32_be_length,
    List.drop_left' (write_u32_be_length _)]
  rw [unbuffer_ref_short body.length hL _
    (by simp only [List.length_take, List.length_append, write_i32_be_length,
          write_u32_be_length, List.length_replicate]
        omega)]
  congr 3
  simp only [List.length_take, List.length_append, write_i32_be_length,
    write_u32_be_length, List.length_replicate]
  omega

/-! ## Decoding arbitrary buffers -/

theorem unbuffer_u32_ok (buf : List Nat) (h : 4 ≤ buf.length) :
    ∃ v, unbuffer_u32 buf = .ok (v, buf.drop 4) := by
  obtain - | ⟨b0, - | ⟨b1, - | ⟨b2, - | ⟨b3, rest⟩⟩⟩⟩ := buf
  · simp at h
  · simp at h
  · simp at h
  · simp at h
  · exact ⟨_, rfl⟩

theorem unbuffer_i32_ok (buf : List Nat) (h : 4 ≤ buf.length) :
    ∃ v, unbuffer_i32 buf = .ok (v, buf.drop 4) := by
  obtain ⟨v, hv⟩ := unbuffer_u32_ok buf h
  exact ⟨u32_to_i32 v, by unfold unbuffer_i32; rw [hv]⟩

theorem timeval_ok (buf : List Nat) (h : 8 ≤ buf.length) :
    ∃ tv, TimeVal.unbuffer_ref buf = .ok (tv, buf.drop 8) := by
  obtain ⟨s, hs⟩ := unbuffer_i32_ok buf (by omega)
  obtain ⟨u, hu⟩ := unbuffer_i32_ok (buf.drop 4) (by simp [List.length_drop]; omega)
  refine ⟨⟨s, u⟩, ?_⟩
  unfold TimeVal.unbuffer_ref
  rw [hs]
  dsimp only
  rw [hu]
  simp [List.drop_drop]

/-- A buffer shorter than the 4-byte length field fails immediately, with the
`Exactly` error converted to `AtLeast` and nothing consumed. -/
theorem unbuffer_ref_short_header (buf : List Nat) (h : buf.length < 4) :
    SequencedMessage.unbuffer_ref buf
      = .err (.NeedMoreData (.AtLeast (4 - buf.length))) buf := by
  obtain - | ⟨a, - | ⟨b, - | ⟨c, - | ⟨d, t⟩⟩⟩⟩ := buf
  · rfl
  · rfl
  · rfl
  · rfl
  · simp only [List.length_cons] at h
    omega

/-- Complete case analysis of frame decode on a buffer that begins with a
4-byte length field reading `f`: `f < 24` panics; too few remaining bytes
give `NeedMoreData(Exactly shortfall)` with the length field consumed;
otherwise decode succeeds, the body being the next `L` bytes after the
20-byte header remainder. -/
theorem unbuffer_ref_cons_cases (b0 b1 b2 b3 : Nat) (t : List Nat) :
    (read_u32_be b0 b1 b2 b3 < 24 →
      SequencedMessage.unbuffer_ref (b0 :: b1 :: b2 :: b3 :: t) = .panicked) ∧
    (∀ L, read_u32_be b0 b1 b2 b3 = L + 24 →
      (t.length < L + compute_padding L + 20 →
        SequencedMessage.unbuffer_ref (b0 :: b1 :: b2 :: b3 :: t)
          = .err (.NeedMoreData (.Exactly (L + compute_padding L + 20 - t.length))) t) ∧
      (L + compute_padding L + 20 ≤ t.length →
        ∃ tv sender mtype seq,
          SequencedMessage.unbuffer_ref (b0 :: b1 :: b2 :: b3 :: t)
            = .ok (SequencedMessage.new tv mtype sender
                  (GenericBody.new ((t.drop 20).take L)) seq)
                (t.drop (20 + (L + compute_padding L))))) := by
  constructor
  · intro hf
    unfold SequencedMessage.unbuffer_ref
    rw [show unbuffer_u32 (b0 :: b1 :: b2 :: b3 :: t)
      = .ok (read_u32_be b0 b1 b2 b3, t) from rfl]
    dsimp only
    rw [from_length_field_none _ hf]
  · intro L hL24
    constructor
    · intro hshort
      unfold SequencedMessage.unbuffer_ref
      rw [show unbuffer_u32 (b0 :: b1 :: b2 :: b3 :: t)
        = .ok (read_u32_be b0 b1 b2 b3, t) from rfl]
      dsimp only
      rw [hL24, from_length_field_some _ (by omega)]
      simp only [Nat.add_sub_cancel]
      simp only [padded_message_size_eval, unpadded_body_size_eval]
      rw [if_pos (by omega)]
      have : L + compute_padding L + 24 - 4 - t.length
          = L + compute_padding L + 20 - t.length := by omega
      rw [this]
    · intro hlong
      unfold SequencedMessage.unbuffer_ref
      rw [show unbuffer_u32 (b0 :: b1 :: b2 :: b3 :: t)
        = .ok (read_u32_be b0 b1 b2 b3, t) from rfl]
      dsimp only
      rw [hL24, from_length_field_some _ (by omega)]
      simp only [Nat.add_sub_cancel]
      simp only [padded_message_size_eval, unpadded_body_size_eval, body_padding_eval]
      rw [if_neg (by omega)]
      obtain ⟨tv, htv⟩ := timeval_ok t (by omega)
      rw [htv]
      dsimp only
      obtain ⟨sd, hsd⟩ := unbuffer_i32_ok (t.drop 8) (by simp [List.length_drop]; omega)
      rw [hsd]
      dsimp only
      obtain ⟨mt, hmt⟩ := unbuffer_i32_ok ((t.drop 8).drop 4)
        (by simp [List.length_drop]; omega)
      rw [hmt]
      dsimp only
      obtain ⟨sq, hsq⟩ := unbuffer_u32_ok (((t.drop 8).drop 4).drop 4)
        (by simp [List.length_drop]; omega)
      rw [hsq]
      dsimp only
      refine ⟨tv, sd, mt, sq, ?_⟩
      rw [show List.drop 4 (List.drop 4 (List.drop 4 (List.drop 8 t))) = List.drop 20 t
        from by simp [List.drop_drop]]
      rw [if_neg (by simp only [List.length_cons, List.length_drop, ALIGN]; omega)]
      rw [if_neg (by simp only [List.length_drop]; omega)]
      unfold GenericBody.unbuffer_ref
      dsimp only
      rw [List.drop_length]
      rw [if_neg (by simp)]
      rw [if_neg (by simp only [List.length_drop]; omega)]
      congr 1
      simp only [List.drop_drop]
      congr 1
      omega

/-! ## Claim theorems -/

/-- C1 (amended): for every unpadded body size `L` with `L + 24 < 2^32`,
`length_field` is `24 + L` (the `as u32` cast truncates larger values), and
`padded_message_size` is always a multiple of 8; body size 17 gives
length field 41 and padded size 48, body size 13 gives 37 and 40. -/
theorem C1_length_field_and_alignment (L : Nat) :
    (L + 24 < 2 ^ 32 →
      (MessageSize.from_unpadded_body_size L).length_field = 24 + L) ∧
    (MessageSize.from_unpadded_body_size L).padded_message_size % 8 = 0 ∧
    (MessageSize.from_unpadded_body_size 17).length_field = 41 ∧
    (MessageSize.from_unpadded_body_size 17).padded_message_size = 48 ∧
    (MessageSize.from_unpadded_body_size 13).length_field = 37 ∧
    (MessageSize.from_unpadded_body_size 13).padded_message_size = 40 := by
  refine ⟨?_, ?_, by decide, by decide, by decide, by decide⟩
  · intro h
    show (L + padded MessageSize.UNPADDED_HEADER_SIZE) % 2 ^ 32 = 24 + L
    rw [padded_header_eq, Nat.mod_eq_of_lt h]
    omega
  · have h8 : (L + compute_padding L) % 8 = 0 := padded_mod L
    rw [padded_message_size_eval]
    omega

/-- C1 (counterexample): at body size `2^32` the `as u32` cast truncates the
length field to 24, so `length_field ≠ 24 + L` there. -/
theorem C1_length_field_truncates :
    (MessageSize.from_unpadded_body_size (2 ^ 32)).length_field = 24 ∧
    (MessageSize.from_unpadded_body_size (2 ^ 32)).length_field ≠ 24 + 2 ^ 32 := by
  decide

/-- C1 (witness): instantiation at body size 17. -/
theorem C1_witness :
    (MessageSize.from_unpadded_body_size 17).length_field = 24 + 17 ∧
    (MessageSize.from_unpadded_body_size 17).padded_message_size % 8 = 0 :=
  ⟨(C1_length_field_and_alignment 17).1 (by norm_num),
   (C1_length_field_and_alignment 17).2.1⟩

/-- C7 (amended): for every `MessageSize` whose `unpadded_body_size + 24`
fits in a `u32`, `from_length_field (length_field s) = some s`; concretely
41 recovers body size 17 and 37 recovers body size 13. -/
theorem C7_from_length_field_roundtrip (s : MessageSize)
    (h : s.unpadded_body_size + 24 < 2 ^ 32) :
    MessageSize.from_length_field s.length_field = some s ∧
    MessageSize.from_length_field 41 = some (MessageSize.from_unpadded_body_size 17) ∧
    MessageSize.from_length_field 37 = some (MessageSize.from_unpadded_body_size 13) := by
  refine ⟨?_, by decide, by decide⟩
  obtain ⟨L⟩ := s
  have hl : MessageSize.length_field ⟨L⟩ = L + 24 := by
    show (L + padded MessageSize.UNPADDED_HEADER_SIZE) % 2 ^ 32 = L + 24
    rw [padded_header_eq, Nat.mod_eq_of_lt h]
  rw [hl, from_length_field_eval L h]
  rfl

/-- C7 (counterexample): the `MessageSize` with body size `2^32` is
constructible from an unpadded body size, but its length field truncates to
24 and `from_length_field` recovers body size 0, not `2^32`. -/
theorem C7_roundtrip_truncates :
    MessageSize.from_length_field
        (MessageSize.from_unpadded_body_size (2 ^ 32)).length_field
      = some (MessageSize.from_unpadded_body_size 0) ∧
    MessageSize.from_unpadded_body_size 0 ≠ MessageSize.from_unpadded_body_size (2 ^ 32) := by
  decide

/-- C7 (witness): instantiation at body size 17. -/
theorem C7_witness :
    MessageSize.from_length_field (MessageSize.from_unpadded_body_size 17).length_field
      = some (MessageSize.from_unpadded_body_size 17) ∧
    MessageSize.from_length_field 41 = some (MessageSize.from_unpadded_body_size 17) ∧
    MessageSize.from_length_field 37 = some (MessageSize.from_unpadded_body_size 13) :=
  C7_from_length_field_roundtrip (MessageSize.from_unpadded_body_size 17) (by decide)

/-- C9: `from_length_field f` is well-defined (`some`) exactly when
`24 ≤ f`; for `f < 24` the `usize` subtraction underflows (`none`, a panic),
and frame decode passes the wire length field straight to `from_length_field`,
so a buffer whose first four bytes read below 24 makes `unbuffer_ref` panic
rather than return an error. -/
theorem C9_short_length_field_panics :
    (∀ f, f < 24 → MessageSize.from_length_field f = none) ∧
    (∀ f, 24 ≤ f → (MessageSize.from_length_field f).isSome) ∧
    (∀ b0 b1 b2 b3 : Nat, ∀ t : List Nat, read_u32_be b0 b1 b2 b3 < 24 →
      SequencedMessage.unbuffer_ref (b0 :: b1 :: b2 :: b3 :: t) = .panicked) :=
  ⟨fun f hf => from_length_field_none f hf,
   fun f hf => by rw [from_length_field_some f hf]; rfl,
   fun b0 b1 b2 b3 t hf => (unbuffer_ref_cons_cases b0 b1 b2 b3 t).1 hf⟩

/-- C9 (witness): length field 0 is rejected; length field 30 is accepted;
a frame declaring length field 23 panics the decoder. -/
theorem C9_witness :
    MessageSize.from_length_field 0 = none ∧
    (MessageSize.from_length_field 30).isSome ∧
    SequencedMessage.unbuffer_ref [0, 0, 0, 23] = .panicked :=
  ⟨C9_short_length_field_panics.1 0 (by norm_num),
   C9_short_length_field_panics.2.1 30 (by norm_num),
   C9_short_length_field_panics.2.2 0 0 0 23 [] (by decide)⟩

/-- C5: the serializer encodes a bool as a 2-byte big-endian `i16`
(`serialize_bool` delegates to `serialize_i16`), while the deserializer's
`parse_bool` reads a 4-byte `u32`; deserializing the serialized bytes
therefore fails with `NeedMoreData(AtLeast 2)` instead of returning the
original bool, contradicting the spec's 32-bit encoding (which the decoder
alone does implement). -/
theorem C5_bool_serde_mismatch :
    serialize_bool true = [0, 1] ∧
    serialize_bool false = [0, 0] ∧
    from_buf parse_bool (serialize_bool true) = .error (.NeedMoreData (.AtLeast 2)) ∧
    from_buf parse_bool (serialize_bool false) = .error (.NeedMoreData (.AtLeast 2)) ∧
    from_buf parse_bool (write_u32_be 1) = .ok true ∧
    from_buf parse_bool (write_u32_be 0) = .ok false := by
  decide

/-- C8 (amended): when a value is fully decoded and bytes remain, `from_buf`
fails with the fatal `TrailingCharacters`; `Message::try_from_generic`
fails fatally too but with an `OtherMessage` error reporting the unconsumed
byte count (not the `TrailingCharacters` variant, and not `NeedMoreData`). -/
theorem C8_trailing_bytes {α : Type} (d : List Nat → Except Error (α × List Nat))
    (hdr : MessageHeader) (buf : List Nat) (t : α) (rest : List Nat)
    (hd : d buf = .ok (t, rest)) (hne : rest.length ≠ 0) :
    from_buf d buf = .error .TrailingCharacters ∧
    Message.try_from_generic d { header := hdr, body := GenericBody.new buf }
      = .error (.OtherMessage ("message body length was indicated as "
          ++ toString buf.length ++ ", but "
          ++ toString rest.length ++ " bytes remain unconsumed")) := by
  constructor
  · unfold from_buf
    rw [hd]
    dsimp only
    rw [if_pos hne]
  · unfold Message.try_from_generic
    dsimp only [GenericBody.new]
    rw [hd]
    dsimp only [Except.mapError]
    rw [if_pos (by omega)]

/-- C8 (counterexample): a 5-byte generic body holding a complete 4-byte
`u32` plus one extra byte makes `try_from_generic` fail with `OtherMessage`,
not with the `TrailingCharacters` error variant the claim names. -/
theorem C8_other_message_not_trailing :
    Message.try_from_generic parse_u32
        { header := ⟨⟨0, 0⟩, 0, 0⟩, body := GenericBody.new [0, 0, 0, 1, 9] }
      = .error (.OtherMessage
          "message body length was indicated as 5, but 1 bytes remain unconsumed") ∧
    Message.try_from_generic parse_u32
        { header := ⟨⟨0, 0⟩, 0, 0⟩, body := GenericBody.new [0, 0, 0, 1, 9] }
      ≠ .error .TrailingCharacters := by
  constructor
  · rfl
  · decide

/-- C8 (witness): instantiation with a `u32` body deserializer and a 5-byte
buffer. -/
theorem C8_witness :
    from_buf parse_u32 [0, 0, 0, 1, 9] = .error .TrailingCharacters ∧
    Message.try_from_generic parse_u32
        { header := ⟨⟨0, 0⟩, 0, 0⟩, body := GenericBody.new [0, 0, 0, 1, 9] }
      = .error (.OtherMessage ("message body length was indicated as "
          ++ toString ([0, 0, 0, 1, 9] : List Nat).length ++ ", but "
          ++ toString ([9] : List Nat).length ++ " bytes remain unconsumed")) :=
  C8_trailing_bytes parse_u32 ⟨⟨0, 0⟩, 0, 0⟩ [0, 0, 0, 1, 9]
    (read_u32_be 0 0 0 1) [9] rfl (by decide)

/-- C2: encoding any wire-valid `SequencedMessage<GenericBody>` into a buffer
with at least `padded_message_size()` free bytes succeeds, and decoding the
resulting bytes yields exactly the original message (header time, sender,
message type, body bytes and sequence number), consuming the whole frame. -/
theorem C2_encode_decode_roundtrip (msg : SequencedMessage) (remaining_mut : Nat)
    (h : wire_valid msg)
    (hcap : (generic_message_size msg).padded_message_size ≤ remaining_mut) :
    SequencedMessage.buffer_ref msg remaining_mut = .ok (encodeFrame msg) ∧
    SequencedMessage.unbuffer_ref (encodeFrame msg) = .ok msg [] := by
  constructor
  · unfold SequencedMessage.buffer_ref
    rw [if_neg (by omega)]
  · exact unbuffer_ref_encodeFrame msg h

/-- C2 (witness): a concrete 3-byte-body message roundtrips through a
32-byte buffer. -/
theorem C2_witness :
    SequencedMessage.buffer_ref
        (SequencedMessage.new ⟨5, 6⟩ 3 2 (GenericBody.new [1, 2, 3]) 7) 32
      = .ok (encodeFrame (SequencedMessage.new ⟨5, 6⟩ 3 2 (GenericBody.new [1, 2, 3]) 7)) ∧
    SequencedMessage.unbuffer_ref
        (encodeFrame (SequencedMessage.new ⟨5, 6⟩ 3 2 (GenericBody.new [1, 2, 3]) 7))
      = .ok (SequencedMessage.new ⟨5, 6⟩ 3 2 (GenericBody.new [1, 2, 3]) 7) [] :=
  C2_encode_decode_roundtrip
    (SequencedMessage.new ⟨5, 6⟩ 3 2 (GenericBody.new [1, 2, 3]) 7) 32
    (by decide) (by decide)

/-- C3 (amended): for a wire-valid message, removing the last `K` bytes of
its encoded frame (`1 ≤ K ≤ frame size - 4`, i.e. the 4-byte length field
survives) makes decode fail with `NeedMoreData(Exactly K)` — the length-field
bytes having been consumed from the buffer — and decoding the complete frame
succeeds. (When the truncation cuts into the length field itself the error is
instead `NeedMoreData(AtLeast (4 - remaining))`, see the counterexample.) -/
theorem C3_truncated_decode (msg : SequencedMessage) (K : Nat) (h : wire_valid msg)
    (hK1 : 1 ≤ K) (hK2 : K + 4 ≤ (generic_message_size msg).padded_message_size) :
    SequencedMessage.unbuffer_ref
        ((encodeFrame msg).take ((generic_message_size msg).padded_message_size - K))
      = .err (.NeedMoreData (.Exactly K))
          (((encodeFrame msg).take
            ((generic_message_size msg).padded_message_size - K)).drop 4) ∧
    SequencedMessage.unbuffer_ref (encodeFrame msg) = .ok msg [] :=
  ⟨unbuffer_ref_encodeFrame_truncated msg h K hK1 hK2,
   unbuffer_ref_encodeFrame msg h⟩

/-- C3 (counterexample): for the complete 48-byte frame of a 17-byte body,
truncating to the first 2 bytes (missing K = 46 bytes) does not report
`NeedMoreData(Exactly 46)`: it reports `NeedMoreData(AtLeast 2)`, the
shortfall of the 4-byte length field only. -/
theorem C3_small_truncation_at_least :
    SequencedMessage.unbuffer_ref
        ((encodeFrame (SequencedMessage.new ⟨0, 0⟩ 0 0
          (GenericBody.new (List.replicate 17 0)) 0)).take 2)
      = .err (.NeedMoreData (.AtLeast 2))
          ((encodeFrame (SequencedMessage.new ⟨0, 0⟩ 0 0
            (GenericBody.new (List.replicate 17 0)) 0)).take 2) ∧
    SequencedMessage.unbuffer_ref
        ((encodeFrame (SequencedMessage.new ⟨0, 0⟩ 0 0
          (GenericBody.new (List.replicate 17 0)) 0)).take 2)
      ≠ .err (.NeedMoreData (.Exactly 46))
          ((encodeFrame (SequencedMessage.new ⟨0, 0⟩ 0 0
            (GenericBody.new (List.replicate 17 0)) 0)).take 2) := by
  decide

/-- C3 (witness): the spec's concrete scenario — a complete 48-byte frame
(body size 17) minus its final 5 body-padding bytes decodes to
`NeedMoreData(Exactly 5)`, and the complete frame decodes successfully. -/
theorem C3_witness :
    SequencedMessage.unbuffer_ref
        ((encodeFrame (SequencedMessage.new ⟨0, 0⟩ 0 0
            (GenericBody.new (List.replicate 17 0)) 0)).take
          ((generic_message_size (SequencedMessage.new ⟨0, 0⟩ 0 0
            (GenericBody.new (List.replicate 17 0)) 0)).padded_message_size - 5))
      = .err (.NeedMoreData (.Exactly 5))
          (((encodeFrame (SequencedMessage.new ⟨0, 0⟩ 0 0
              (GenericBody.new (List.replicate 17 0)) 0)).take
            ((generic_message_size (SequencedMessage.new ⟨0, 0⟩ 0 0
              (GenericBody.new (List.replicate 17 0)) 0)).padded_message_size - 5)).drop 4) ∧
    SequencedMessage.unbuffer_ref
        (encodeFrame (SequencedMessage.new ⟨0, 0⟩ 0 0
          (GenericBody.new (List.replicate 17 0)) 0))
      = .ok (SequencedMessage.new ⟨0, 0⟩ 0 0 (GenericBody.new (List.replicate 17 0)) 0) [] :=
  C3_truncated_decode
    (SequencedMessage.new ⟨0, 0⟩ 0 0 (GenericBody.new (List.replicate 17 0)) 0) 5
    (by decide) (by decide) (by decide)

/-- C4 (amended): when `unbuffer_ref` fails with an error, the buffer is
unchanged only if it held fewer than 4 bytes; otherwise exactly the 4-byte
length field has been consumed and the returned buffer is the input minus its
first 4 bytes — so a retry on the same buffer would not re-read the frame
from its original start. -/
theorem C4_needmoredata_buffer_state (buf : List Nat) (e : Error) (rest : List Nat)
    (h : SequencedMessage.unbuffer_ref buf = .err e rest) :
    (buf.length < 4 ∧ rest = buf) ∨ (4 ≤ buf.length ∧ rest = buf.drop 4) := by
  by_cases hb : buf.length < 4
  · left
    refine ⟨hb, ?_⟩
    rw [unbuffer_ref_short_header buf hb] at h
    injection h with h1 h2
    exact h2.symm
  · right
    push_neg at hb
    refine ⟨hb, ?_⟩
    obtain - | ⟨a, - | ⟨b, - | ⟨c, - | ⟨d, t⟩⟩⟩⟩ := buf
    · simp at hb
    · simp only [List.length_cons, List.length_nil] at hb; omega
    · simp only [List.length_cons, List.length_nil] at hb; omega
    · simp only [List.length_cons, List.length_nil] at hb; omega
    · have master := unbuffer_ref_cons_cases a b c d t
      by_cases hf : read_u32_be a b c d < 24
      · rw [master.1 hf] at h
        simp at h
      · have hL24 : read_u32_be a b c d = (read_u32_be a b c d - 24) + 24 := by omega
        have m2 := master.2 (read_u32_be a b c d - 24) hL24
        by_cases hs : t.length < (read_u32_be a b c d - 24)
            + compute_padding (read_u32_be a b c d - 24) + 20
        · rw [m2.1 hs] at h
          injection h with h1 h2
          exact h2.symm
        · obtain ⟨tv, sd, mt, sq, hok⟩ := m2.2 (by omega)
          rw [hok] at h
          simp at h

/-- C4 (counterexample): the 43-byte truncation of a complete 48-byte frame
fails with `NeedMoreData(Exactly 5)` but the buffer argument is NOT left
unchanged: the 4 length-field bytes have been consumed. -/
theorem C4_buffer_mutated :
    SequencedMessage.unbuffer_ref
        ((encodeFrame (SequencedMessage.new ⟨0, 0⟩ 0 0
          (GenericBody.new (List.replicate 17 0)) 0)).take 43)
      = .err (.NeedMoreData (.Exactly 5))
          (((encodeFrame (SequencedMessage.new ⟨0, 0⟩ 0 0
            (GenericBody.new (List.replicate 17 0)) 0)).take 43).drop 4) ∧
    ((encodeFrame (SequencedMessage.new ⟨0, 0⟩ 0 0
        (GenericBody.new (List.replicate 17 0)) 0)).take 43).drop 4
      ≠ (encodeFrame (SequencedMessage.new ⟨0, 0⟩ 0 0
          (GenericBody.new (List.replicate 17 0)) 0)).take 43 := by
  decide

/-- C4 (witness): instantiation of the buffer-state dichotomy at the 43-byte
truncated frame, which lands in the "4 bytes consumed" branch. -/
theorem C4_witness :
    (((encodeFrame (SequencedMessage.new ⟨0, 0⟩ 0 0
        (GenericBody.new (List.replicate 17 0)) 0)).take 43).length < 4 ∧
      ((encodeFrame (SequencedMessage.new ⟨0, 0⟩ 0 0
        (GenericBody.new (List.replicate 17 0)) 0)).take 43).drop 4
        = (encodeFrame (SequencedMessage.new ⟨0, 0⟩ 0 0
            (GenericBody.new (List.replicate 17 0)) 0)).take 43) ∨
    (4 ≤ ((encodeFrame (SequencedMessage.new ⟨0, 0⟩ 0 0
        (GenericBody.new (List.replicate 17 0)) 0)).take 43).length ∧
      ((encodeFrame (SequencedMessage.new ⟨0, 0⟩ 0 0
        (GenericBody.new (List.replicate 17 0)) 0)).take 43).drop 4
        = ((encodeFrame (SequencedMessage.new ⟨0, 0⟩ 0 0
            (GenericBody.new (List.replicate 17 0)) 0)).take 43).drop 4) :=
  C4_needmoredata_buffer_state
    ((encodeFrame (SequencedMessage.new ⟨0, 0⟩ 0 0
      (GenericBody.new (List.replicate 17 0)) 0)).take 43)
    (.NeedMoreData (.Exactly 5))
    (((encodeFrame (SequencedMessage.new ⟨0, 0⟩ 0 0
      (GenericBody.new (List.replicate 17 0)) 0)).take 43).drop 4)
    (by decide)

/-- C6: `buffer_ref` fails with `OutOfBuffer` exactly when the destination
has fewer free bytes than `padded_message_size()`; otherwise it writes, in
order, the big-endian length field, the two timestamp fields, sender ID,
type ID, sequence number, the raw body bytes and `body_padding()` zero
bytes, for a total of `padded_message_size()` bytes. -/
theorem C6_buffer_ref_layout (msg : SequencedMessage) (remaining_mut : Nat) :
    (SequencedMessage.buffer_ref msg remaining_mut = .error .OutOfBuffer ↔
      remaining_mut < (generic_message_size msg).padded_message_size) ∧
    ((generic_message_size msg).padded_message_size ≤ remaining_mut →
      SequencedMessage.buffer_ref msg remaining_mut
        = .ok (write_u32_be (generic_message_size msg).length_field
            ++ (write_i32_be msg.message.header.time.seconds
            ++ (write_i32_be msg.message.header.time.microseconds
            ++ (write_i32_be msg.message.header.sender
            ++ (write_i32_be msg.message.header.message_type
            ++ (write_u32_be msg.sequence_number
            ++ (msg.message.body.inner
            ++ List.replicate (generic_message_size msg).body_padding 0)))))))) ∧
    (encodeFrame msg).length = (generic_message_size msg).padded_message_size := by
  refine ⟨?_, ?_, ?_⟩
  · unfold SequencedMessage.buffer_ref
    constructor
    · intro h
      by_contra hc
      rw [if_neg hc] at h
      simp at h
    · intro h
      rw [if_pos h]
  · intro h
    unfold SequencedMessage.buffer_ref
    rw [if_neg (by omega)]
    unfold encodeFrame
    simp [List.append_assoc]
  · unfold encodeFrame
    simp only [List.length_append, write_u32_be_length, write_i32_be_length,
      List.length_replicate, generic_message_size, padded_message_size_eval,
      body_padding_eval]
    omega

/-- C6 (witness): a 3-byte-body message (padded size 32) is rejected by a
31-byte buffer and laid out fully in a 32-byte buffer. -/
theorem C6_witness :
    (SequencedMessage.buffer_ref
        (SequencedMessage.new ⟨5, 6⟩ 3 2 (GenericBody.new [1, 2, 3]) 7) 32
      = .error .OutOfBuffer ↔
      32 < (generic_message_size
        (SequencedMessage.new ⟨5, 6⟩ 3 2 (GenericBody.new [1, 2, 3]) 7)).padded_message_size) ∧
    ((generic_message_size
        (SequencedMessage.new ⟨5, 6⟩ 3 2 (GenericBody.new [1, 2, 3]) 7)).padded_message_size ≤ 32 →
      SequencedMessage.buffer_ref
          (SequencedMessage.new ⟨5, 6⟩ 3 2 (GenericBody.new [1, 2, 3]) 7) 32
        = .ok (write_u32_be (generic_message_size
              (SequencedMessage.new ⟨5, 6⟩ 3 2 (GenericBody.new [1, 2, 3]) 7)).length_field
            ++ (write_i32_be (SequencedMessage.new ⟨5, 6⟩ 3 2
                (GenericBody.new [1, 2, 3]) 7).message.header.time.seconds
            ++ (write_i32_be (SequencedMessage.new ⟨5, 6⟩ 3 2
                (GenericBody.new [1, 2, 3]) 7).message.header.time.microseconds
            ++ (write_i32_be (SequencedMessage.new ⟨5, 6⟩ 3 2
                (GenericBody.new [1, 2, 3]) 7).message.header.sender
            ++ (write_i32_be (SequencedMessage.new ⟨5, 6⟩ 3 2
                (GenericBody.new [1, 2, 3]) 7).message.header.message_type
            ++ (write_u32_be (SequencedMessage.new ⟨5, 6⟩ 3 2
                (GenericBody.new [1, 2, 3]) 7).sequence_number
            ++ ((SequencedMessage.new ⟨5, 6⟩ 3 2
                (GenericBody.new [1, 2, 3]) 7).message.body.inner
            ++ List.replicate (generic_message_size (SequencedMessage.new ⟨5, 6⟩ 3 2
                (GenericBody.new [1, 2, 3]) 7)).body_padding 0)))))))) ∧
    (encodeFrame (SequencedMessage.new ⟨5, 6⟩ 3 2 (GenericBody.new [1, 2, 3]) 7)).length
      = (generic_message_size
          (SequencedMessage.new ⟨5, 6⟩ 3 2 (GenericBody.new [1, 2, 3]) 7)).padded_message_size :=
  C6_buffer_ref_layout (SequencedMessage.new ⟨5, 6⟩ 3 2 (GenericBody.new [1, 2, 3]) 7) 32

/-- C10: `GenericBody::unbuffer_ref` is total — it succeeds on every input,
returns a body equal to the entire input buffer, and leaves the buffer
empty; consequently any successful frame decode produces a body of exactly
`unpadded_body_size()` bytes of the `MessageSize` derived from the frame's
length field. -/
theorem C10_generic_body_total :
    (∀ buf : List Nat, GenericBody.unbuffer_ref buf = .ok (GenericBody.new buf, [])) ∧
    (∀ (buf : List Nat) (sm : SequencedMessage) (rest : List Nat),
      SequencedMessage.unbuffer_ref buf = .ok sm rest →
      ∃ f rest4 sz, unbuffer_u32 buf = .ok (f, rest4) ∧
        MessageSize.from_length_field f = some sz ∧
        sm.message.body.inner.length = sz.unpadded_body_size) := by
  constructor
  · intro buf
    unfold GenericBody.unbuffer_ref
    rw [List.drop_length]
  · intro buf sm rest h
    by_cases hb : buf.length < 4
    · rw [unbuffer_ref_short_header buf hb] at h
      simp at h
    · push_neg at hb
      obtain - | ⟨a, - | ⟨b, - | ⟨c, - | ⟨d, t⟩⟩⟩⟩ := buf
      · simp at hb
      · simp only [List.length_cons, List.length_nil] at hb; omega
      · simp only [List.length_cons, List.length_nil] at hb; omega
      · simp only [List.length_cons, List.length_nil] at hb; omega
      · have master := unbuffer_ref_cons_cases a b c d t
        by_cases hf : read_u32_be a b c d < 24
        · rw [master.1 hf] at h
          simp at h
        · have hL24 : read_u32_be a b c d = (read_u32_be a b c d - 24) + 24 := by omega
          have m2 := master.2 (read_u32_be a b c d - 24) hL24
          by_cases hs : t.length < (read_u32_be a b c d - 24)
              + compute_padding (read_u32_be a b c d - 24) + 20
          · rw [m2.1 hs] at h
            simp at h
          · obtain ⟨tv, sd, mt, sq, hok⟩ := m2.2 (by omega)
            rw [hok] at h
            injection h with h1 h2
            refine ⟨read_u32_be a b c d, t,
              MessageSize.from_unpadded_body_size (read_u32_be a b c d - 24),
              rfl, from_length_field_some _ (by omega), ?_⟩
            rw [← h1]
            show ((t.drop 20).take (read_u32_be a b c d - 24)).length = _
            simp only [List.length_take, List.length_drop, unpadded_body_size_eval]
            omega

/-- C10 (witness): instantiation at the encoded frame of a 3-byte-body
message: the decoded body has exactly 3 bytes, the body size derived from
the length field. -/
theorem C10_witness :
    ∃ f rest4 sz,
      unbuffer_u32 (encodeFrame (SequencedMessage.new ⟨5, 6⟩ 3 2
          (GenericBody.new [1, 2, 3]) 7)) = .ok (f, rest4) ∧
      MessageSize.from_length_field f = some sz ∧
      (SequencedMessage.new ⟨5, 6⟩ 3 2
        (GenericBody.new [1, 2, 3]) 7).message.body.inner.length = sz.unpadded_body_size :=
  C10_generic_body_total.2
    (encodeFrame (SequencedMessage.new ⟨5, 6⟩ 3 2 (GenericBody.new [1, 2, 3]) 7))
    (SequencedMessage.new ⟨5, 6⟩ 3 2 (GenericBody.new [1, 2, 3]) 7) []
    (by decide)

end Vrpn
